import Mathlib

/-!
Shallow embedding of the ticket ingestion and routing pipeline
(ticket model and state machine, queue manager, triage fan-out,
auto-close task, subscription bus) together with theorems settling
the specification claims about it.

Time is modelled as integer seconds since the epoch; every operation
that in the source reads the wall clock takes an explicit `now : Int`
argument.  Python dictionaries with a fixed key set are modelled as
Lean structures; dictionaries with open key sets as association lists;
raising an exception as returning `Except`/`Option`.
-/

namespace TicketSystem

/-- Status of a ticket in the system (app/models/enums.py, TicketStatus). -/
inductive TicketStatus where
  | INBOX
  | TRIAGING
  | TRIAGE_PENDING
  | ASSIGNED
  | IN_PROGRESS
  | RESOLVED
  | CLOSED
deriving DecidableEq, Repr

/-- Priority level of a ticket (app/models/enums.py, TicketPriority). -/
inductive TicketPriority where
  | LOW
  | MEDIUM
  | HIGH
  | CRITICAL
deriving DecidableEq, Repr

/-- Category classification of a ticket (app/models/enums.py, TicketCategory). -/
inductive TicketCategory where
  | BILLING
  | TECHNICAL_SUPPORT
  | FEATURE_REQUEST
  | BUG_REPORT
  | ADMIN
  | OTHER
deriving DecidableEq, Repr

/-- The five queues of the processing pipeline (app/models/enums.py, QueueType). -/
inductive QueueType where
  | INBOX
  | TRIAGE
  | ASSIGNMENT
  | ACTIVE
  | RESOLUTION
deriving DecidableEq, Repr

/-- Source of the ticket ingestion (app/models/enums.py, TicketSource). -/
inductive TicketSource where
  | EMAIL
  | DISCORD
  | GITHUB
  | FORM
  | WEBHOOK
deriving DecidableEq, Repr

/-- Actions that can be taken for auto-resolution (app/models/enums.py, AutoResolveAction). -/
inductive AutoResolveAction where
  | MANUAL
  | FAQ_LINK
  | AUTO_RESPONSE
  | REBOOT
  | CONFIG_CHANGE
  | DUPLICATE_CLOSE
  | SELF_SERVICE_REDIRECT
  | NONE
deriving DecidableEq, Repr

/-- The `.value` string of a `TicketStatus` member. -/
def TicketStatus.value : TicketStatus → String
  | .INBOX => "INBOX"
  | .TRIAGING => "TRIAGING"
  | .TRIAGE_PENDING => "TRIAGE_PENDING"
  | .ASSIGNED => "ASSIGNED"
  | .IN_PROGRESS => "IN_PROGRESS"
  | .RESOLVED => "RESOLVED"
  | .CLOSED => "CLOSED"

/-- Model of `TicketStatus(s)`: value lookup, `none` models the `ValueError`. -/
def TicketStatus.parse : String → Option TicketStatus
  | "INBOX" => some .INBOX
  | "TRIAGING" => some .TRIAGING
  | "TRIAGE_PENDING" => some .TRIAGE_PENDING
  | "ASSIGNED" => some .ASSIGNED
  | "IN_PROGRESS" => some .IN_PROGRESS
  | "RESOLVED" => some .RESOLVED
  | "CLOSED" => some .CLOSED
  | _ => none

/-- The `.value` string of a `TicketPriority` member. -/
def TicketPriority.value : TicketPriority → String
  | .LOW => "LOW"
  | .MEDIUM => "MEDIUM"
  | .HIGH => "HIGH"
  | .CRITICAL => "CRITICAL"

/-- Model of `TicketPriority(s)`: value lookup, `none` models the `ValueError`. -/
def TicketPriority.parse : String → Option TicketPriority
  | "LOW" => some .LOW
  | "MEDIUM" => some .MEDIUM
  | "HIGH" => some .HIGH
  | "CRITICAL" => some .CRITICAL
  | _ => none

/-- The `.value` string of a `TicketCategory` member. -/
def TicketCategory.value : TicketCategory → String
  | .BILLING => "BILLING"
  | .TECHNICAL_SUPPORT => "TECHNICAL_SUPPORT"
  | .FEATURE_REQUEST => "FEATURE_REQUEST"
  | .BUG_REPORT => "BUG_REPORT"
  | .ADMIN => "ADMIN"
  | .OTHER => "OTHER"

/-- Model of `TicketCategory(s)`: value lookup, `none` models the `ValueError`. -/
def TicketCategory.parse : String → Option TicketCategory
  | "BILLING" => some .BILLING
  | "TECHNICAL_SUPPORT" => some .TECHNICAL_SUPPORT
  | "FEATURE_REQUEST" => some .FEATURE_REQUEST
  | "BUG_REPORT" => some .BUG_REPORT
  | "ADMIN" => some .ADMIN
  | "OTHER" => some .OTHER
  | _ => none

/-- The `.value` string of a `QueueType` member. -/
def QueueType.value : QueueType → String
  | .INBOX => "INBOX"
  | .TRIAGE => "TRIAGE"
  | .ASSIGNMENT => "ASSIGNMENT"
  | .ACTIVE => "ACTIVE"
  | .RESOLUTION => "RESOLUTION"

/-- Model of `QueueType(s)`: value lookup, `none` models the `ValueError`. -/
def QueueType.parse : String → Option QueueType
  | "INBOX" => some .INBOX
  | "TRIAGE" => some .TRIAGE
  | "ASSIGNMENT" => some .ASSIGNMENT
  | "ACTIVE" => some .ACTIVE
  | "RESOLUTION" => some .RESOLUTION
  | _ => none

/-- The `.value` string of a `TicketSource` member. -/
def TicketSource.value : TicketSource → String
  | .EMAIL => "EMAIL"
  | .DISCORD => "DISCORD"
  | .GITHUB => "GITHUB"
  | .FORM => "FORM"
  | .WEBHOOK => "WEBHOOK"

/-- Model of `TicketSource(s)`: value lookup, `none` models the `ValueError`. -/
def TicketSource.parse : String → Option TicketSource
  | "EMAIL" => some .EMAIL
  | "DISCORD" => some .DISCORD
  | "GITHUB" => some .GITHUB
  | "FORM" => some .FORM
  | "WEBHOOK" => some .WEBHOOK
  | _ => none

/-- The `.value` string of an `AutoResolveAction` member. -/
def AutoResolveAction.value : AutoResolveAction → String
  | .MANUAL => "MANUAL"
  | .FAQ_LINK => "FAQ_LINK"
  | .AUTO_RESPONSE => "AUTO_RESPONSE"
  | .REBOOT => "REBOOT"
  | .CONFIG_CHANGE => "CONFIG_CHANGE"
  | .DUPLICATE_CLOSE => "DUPLICATE_CLOSE"
  | .SELF_SERVICE_REDIRECT => "SELF_SERVICE_REDIRECT"
  | .NONE => "NONE"

/-- Model of `AutoResolveAction(s)`: value lookup, `none` models the `ValueError`. -/
def AutoResolveAction.parse : String → Option AutoResolveAction
  | "MANUAL" => some .MANUAL
  | "FAQ_LINK" => some .FAQ_LINK
  | "AUTO_RESPONSE" => some .AUTO_RESPONSE
  | "REBOOT" => some .REBOOT
  | "CONFIG_CHANGE" => some .CONFIG_CHANGE
  | "DUPLICATE_CLOSE" => some .DUPLICATE_CLOSE
  | "SELF_SERVICE_REDIRECT" => some .SELF_SERVICE_REDIRECT
  | "NONE" => some .NONE
  | _ => none

/-- Model of `VALID_TRANSITIONS` (app/models/enums.py lines 72-101): legal
targets for each source status. -/
def VALID_TRANSITIONS : TicketStatus → List TicketStatus
  | .INBOX => [.TRIAGING, .TRIAGE_PENDING]
  | .TRIAGING => [.TRIAGE_PENDING, .ASSIGNED, .RESOLVED]
  | .TRIAGE_PENDING => [.ASSIGNED, .RESOLVED, .CLOSED]
  | .ASSIGNED => [.IN_PROGRESS, .RESOLVED, .INBOX, .CLOSED]
  | .IN_PROGRESS => [.RESOLVED, .ASSIGNED, .INBOX, .CLOSED]
  | .RESOLVED => [.IN_PROGRESS, .CLOSED]
  | .CLOSED => [.INBOX]

/-- Model of `QUEUE_STATUS_MAP` (app/models/enums.py lines 105-111): the status
coupled to each queue. -/
def QUEUE_STATUS_MAP : QueueType → TicketStatus
  | .INBOX => .INBOX
  | .TRIAGE => .TRIAGE_PENDING
  | .ASSIGNMENT => .ASSIGNED
  | .ACTIVE => .IN_PROGRESS
  | .RESOLUTION => .RESOLVED

/-- Enumeration of all queue types, in declaration order. -/
def QueueType.all : List QueueType :=
  [.INBOX, .TRIAGE, .ASSIGNMENT, .ACTIVE, .RESOLUTION]

/-- A Python value of unconstrained type (`Any`): used for attachment
records, form fields and AI-reasoning payloads, which the code stores
and re-emits verbatim. -/
inductive PyVal where
  | pynone
  | pybool (b : Bool)
  | pyint (n : Int)
  | pystr (s : String)
  | pylist (xs : List PyVal)
  | pydict (kvs : List (String × PyVal))

/-- Content from email submissions (app/models/content.py, EmailContent).
Timestamps are integer seconds; list/dict fields are stored already
defaulted (the constructor's `or []` / `or ` empty-dict defaults). -/
structure EmailContent where
  sender_email : String
  recipient_email : String
  subject : String
  body : String
  timestamp : Int
  thread_id : Option String
  attachments : List PyVal
  headers : List (String × String)

/-- Content from Discord messages (app/models/content.py, DiscordContent). -/
structure DiscordContent where
  channel_id : String
  user_id : String
  message_id : String
  message_text : String
  timestamp : Int
  username : Option String
  guild_id : Option String
  attachments : List PyVal

/-- Content from GitHub issues (app/models/content.py, GitHubContent). -/
structure GitHubContent where
  repo : String
  issue_number : Int
  author : String
  issue_title : String
  issue_body : String
  timestamp : Int
  labels : List String
  url : Option String
deriving DecidableEq, Repr

/-- Content from form submissions (app/models/content.py, FormContent). -/
structure FormContent where
  form_fields : List (String × PyVal)
  submission_time : Int
  form_id : Option String
  submitter_email : Option String
  submitter_name : Option String

/-- Content from SMS messages (app/models/content.py, SMSContent). -/
structure SMSContent where
  sender_phone_number : String
  recipient_phone_number : String
  message_body : String
  timestamp : Int
  message_sid : Option String
deriving DecidableEq, Repr

/-- The tagged content variant owned by a ticket. -/
inductive TicketContent where
  | email (e : EmailContent)
  | discord (d : DiscordContent)
  | github (g : GitHubContent)
  | form (f : FormContent)
  | sms (s : SMSContent)

/-- Wire form of `EmailContent.to_dict` (the `type` discriminator is
the `ContentDict` constructor; timestamps as abstract instants). -/
structure EmailContentDict where
  sender_email : String
  recipient_email : String
  subject : String
  body : String
  timestamp : Int
  thread_id : Option String
  attachments : List PyVal
  headers : List (String × String)

/-- Wire form of `DiscordContent.to_dict`. -/
structure DiscordContentDict where
  channel_id : String
  user_id : String
  message_id : String
  message_text : String
  timestamp : Int
  username : Option String
  guild_id : Option String
  attachments : List PyVal

/-- Wire form of `GitHubContent.to_dict`. -/
structure GitHubContentDict where
  repo : String
  issue_number : Int
  author : String
  issue_title : String
  issue_body : String
  timestamp : Int
  labels : List String
  url : Option String
deriving DecidableEq, Repr

/-- Wire form of `FormContent.to_dict`. -/
structure FormContentDict where
  form_fields : List (String × PyVal)
  submission_time : Int
  form_id : Option String
  submitter_email : Option String
  submitter_name : Option String

/-- Wire form of `SMSContent.to_dict`. -/
structure SMSContentDict where
  sender_phone_number : String
  recipient_phone_number : String
  message_body : String
  timestamp : Int
  message_sid : Option String
deriving DecidableEq, Repr

/-- The nested content dictionary with its `type` discriminator
(the constructor is the discriminator). -/
inductive ContentDict where
  | email (e : EmailContentDict)
  | discord (d : DiscordContentDict)
  | github (g : GitHubContentDict)
  | form (f : FormContentDict)
  | sms (s : SMSContentDict)

/-- Model of `EmailContent.to_dict`. -/
def EmailContent.to_dict (c : EmailContent) : EmailContentDict :=
  { sender_email := c.sender_email
    recipient_email := c.recipient_email
    subject := c.subject
    body := c.body
    timestamp := c.timestamp
    thread_id := c.thread_id
    attachments := c.attachments
    headers := c.headers }

/-- Model of `EmailContent.from_dict`; the constructor defaults (`or []`) are
the identity on the already-present list/dict values. -/
def EmailContent.from_dict (d : EmailContentDict) : EmailContent :=
  { sender_email := d.sender_email
    recipient_email := d.recipient_email
    subject := d.subject
    body := d.body
    timestamp := d.timestamp
    thread_id := d.thread_id
    attachments := d.attachments
    headers := d.headers }

/-- Model of `DiscordContent.to_dict`. -/
def DiscordContent.to_dict (c : DiscordContent) : DiscordContentDict :=
  { channel_id := c.channel_id
    user_id := c.user_id
    message_id := c.message_id
    message_text := c.message_text
    timestamp := c.timestamp
    username := c.username
    guild_id := c.guild_id
    attachments := c.attachments }

/-- Model of `DiscordContent.from_dict`. -/
def DiscordContent.from_dict (d : DiscordContentDict) : DiscordContent :=
  { channel_id := d.channel_id
    user_id := d.user_id
    message_id := d.message_id
    message_text := d.message_text
    timestamp := d.timestamp
    username := d.username
    guild_id := d.guild_id
    attachments := d.attachments }

/-- Model of `GitHubContent.to_dict`. -/
def GitHubContent.to_dict (c : GitHubContent) : GitHubContentDict :=
  { repo := c.repo
    issue_number := c.issue_number
    author := c.author
    issue_title := c.issue_title
    issue_body := c.issue_body
    timestamp := c.timestamp
    labels := c.labels
    url := c.url }

/-- Model of `GitHubContent.from_dict`. -/
def GitHubContent.from_dict (d : GitHubContentDict) : GitHubContent :=
  { repo := d.repo
    issue_number := d.issue_number
    author := d.author
    issue_title := d.issue_title
    issue_body := d.issue_body
    timestamp := d.timestamp
    labels := d.labels
    url := d.url }

/-- Model of `FormContent.to_dict`. -/
def FormContent.to_dict (c : FormContent) : FormContentDict :=
  { form_fields := c.form_fields
    submission_time := c.submission_time
    form_id := c.form_id
    submitter_email := c.submitter_email
    submitter_name := c.submitter_name }

/-- Model of `FormContent.from_dict`. -/
def FormContent.from_dict (d : FormContentDict) : FormContent :=
  { form_fields := d.form_fields
    submission_time := d.submission_time
    form_id := d.form_id
    submitter_email := d.submitter_email
    submitter_name := d.submitter_name }

/-- Model of `SMSContent.to_dict`. -/
def SMSContent.to_dict (c : SMSContent) : SMSContentDict :=
  { sender_phone_number := c.sender_phone_number
    recipient_phone_number := c.recipient_phone_number
    message_body := c.message_body
    timestamp := c.timestamp
    message_sid := c.message_sid }

/-- Model of `SMSContent.from_dict`. -/
def SMSContent.from_dict (d : SMSContentDict) : SMSContent :=
  { sender_phone_number := d.sender_phone_number
    recipient_phone_number := d.recipient_phone_number
    message_body := d.message_body
    timestamp := d.timestamp
    message_sid := d.message_sid }

/-- Dispatch of `to_dict` over the tagged content variant. -/
def contentToDict : TicketContent → ContentDict
  | .email e => .email e.to_dict
  | .discord d => .discord d.to_dict
  | .github g => .github g.to_dict
  | .form f => .form f.to_dict
  | .sms s => .sms s.to_dict

/-- Model of `content_from_dict` (app/models/content.py lines 480-496): factory
dispatching on the `type` discriminator.  The unknown-discriminator
`ValueError` is unrepresentable on the typed wire form. -/
def content_from_dict : ContentDict → TicketContent
  | .email e => .email (EmailContent.from_dict e)
  | .discord d => .discord (DiscordContent.from_dict d)
  | .github g => .github (GitHubContent.from_dict g)
  | .form f => .form (FormContent.from_dict f)
  | .sms s => .sms (SMSContent.from_dict s)

/-- Python `dict.update`: existing keys keep their position and get the
new value, new keys are appended in order.  Keys are assumed unique, as
they are in a `dict`. -/
def dictUpdate (base upd : List (String × PyVal)) : List (String × PyVal) :=
  base.map (fun kv =>
    match upd.find? (fun kv2 => kv2.1 == kv.1) with
    | some kv2 => kv2
    | none => kv)
  ++ upd.filter (fun kv2 => ¬ base.any (fun kv => kv.1 == kv2.1))

/-- The concrete ticket (app/models/ticket.py, class Ticket).  The
`priority` field is an `Option` because `clear_ai_data` stores `None`
into it.  `title`/`description` are the raw `_title`/`_description`
fields; the derived properties are `titleProp`/`descriptionProp`. -/
structure Ticket where
  id : String
  created_at : Int
  updated_at : Int
  source : TicketSource
  content : TicketContent
  priority : Option TicketPriority
  category : Option TicketCategory
  status : TicketStatus
  current_queue : QueueType
  assignee : Option String
  tags : List String
  ai_reasoning : List (String × PyVal)
  resolution_action : AutoResolveAction
  suggested_assignee : Option String
  title : Option String
  description : Option String

/-- The content-derived fallback of the `title` property: the first of
the keys `subject`, `issue_title`, `message_text` present in the
content dictionary (`message_text` truncated to 100 characters),
otherwise "Untitled Ticket". -/
def titleFallback (c : TicketContent) : String :=
  match contentToDict c with
  | .email e => e.subject
  | .github g => g.issue_title
  | .discord d => d.message_text.take 100
  | _ => "Untitled Ticket"

/-- The content-derived fallback of the `description` property: the
first of the keys `body`, `issue_body`, `message_text` present in the
content dictionary, otherwise the empty string. -/
def descriptionFallback (c : TicketContent) : String :=
  match contentToDict c with
  | .email e => e.body
  | .github g => g.issue_body
  | .discord d => d.message_text
  | _ => ""

/-- The `title` property: the stored title when truthy (set and
non-empty), else the content-derived fallback. -/
def Ticket.titleProp (t : Ticket) : String :=
  match t.title with
  | some s => if s = "" then titleFallback t.content else s
  | none => titleFallback t.content

/-- The `description` property: the stored description when truthy,
else the content-derived fallback. -/
def Ticket.descriptionProp (t : Ticket) : String :=
  match t.description with
  | some s => if s = "" then descriptionFallback t.content else s
  | none => descriptionFallback t.content

/-- Model of `Ticket._can_transition_to`. -/
def Ticket.can_transition_to (t : Ticket) (new_status : TicketStatus) : Bool :=
  (VALID_TRANSITIONS t.status).contains new_status

/-- Model of `Ticket.move_to_queue`: moving to INBOX is always allowed (reset);
any other queue requires the coupled status to be a legal transition
target, otherwise `InvalidStateTransitionError` is raised. -/
def Ticket.move_to_queue (t : Ticket) (now : Int) (queue : QueueType) :
    Except String Ticket :=
  if queue = QueueType.INBOX then
    .ok { t with status := .INBOX, current_queue := queue, updated_at := now }
  else if ¬ t.can_transition_to (QUEUE_STATUS_MAP queue) then
    .error "InvalidStateTransitionError"
  else
    .ok { t with status := QUEUE_STATUS_MAP queue, current_queue := queue,
                 updated_at := now }

/-- Model of `Ticket.assign`: records the assignee; promotes INBOX or
TRIAGE_PENDING tickets to ASSIGNED/ASSIGNMENT, leaves any other
status and queue unchanged. -/
def Ticket.assign (t : Ticket) (now : Int) (assignee : String) : Ticket :=
  if t.status = .INBOX ∨ t.status = .TRIAGE_PENDING then
    { t with assignee := some assignee, status := .ASSIGNED,
             current_queue := .ASSIGNMENT, updated_at := now }
  else
    { t with assignee := some assignee, updated_at := now }

/-- Model of `Ticket.unassign`: clears the assignee and always resets to
INBOX/INBOX. -/
def Ticket.unassign (t : Ticket) (now : Int) : Ticket :=
  { t with assignee := none, status := .INBOX,
           current_queue := .INBOX, updated_at := now }

/-- Model of `Ticket.update_priority`. -/
def Ticket.update_priority (t : Ticket) (now : Int) (p : TicketPriority) : Ticket :=
  { t with priority := some p, updated_at := now }

/-- Model of `Ticket.update_status`: sets the status directly, bypassing
transition validation and leaving `current_queue` untouched. -/
def Ticket.update_status (t : Ticket) (now : Int) (s : TicketStatus) : Ticket :=
  { t with status := s, updated_at := now }

/-- Model of `Ticket.update_title`. -/
def Ticket.update_title (t : Ticket) (now : Int) (s : String) : Ticket :=
  { t with title := some s, updated_at := now }

/-- Model of `Ticket.update_description`. -/
def Ticket.update_description (t : Ticket) (now : Int) (s : String) : Ticket :=
  { t with description := some s, updated_at := now }

/-- Model of `Ticket.set_category`. -/
def Ticket.set_category (t : Ticket) (now : Int) (c : TicketCategory) : Ticket :=
  { t with category := some c, updated_at := now }

/-- Model of `Ticket.log_reasoning`: `self._ai_reasoning.update(reasoning)`. -/
def Ticket.log_reasoning (t : Ticket) (now : Int)
    (reasoning : List (String × PyVal)) : Ticket :=
  { t with ai_reasoning := dictUpdate t.ai_reasoning reasoning, updated_at := now }

/-- Model of `Ticket.set_suggested_assignee`. -/
def Ticket.set_suggested_assignee (t : Ticket) (now : Int) (a : String) : Ticket :=
  { t with suggested_assignee := some a, updated_at := now }

/-- Model of `Ticket.mark_resolved`: requires a legal transition to RESOLVED;
sets the RESOLUTION queue and records the resolution action. -/
def Ticket.mark_resolved (t : Ticket) (now : Int) (action : AutoResolveAction) :
    Except String Ticket :=
  if ¬ t.can_transition_to .RESOLVED then
    .error "InvalidStateTransitionError"
  else
    .ok { t with status := .RESOLVED, current_queue := .RESOLUTION,
                 resolution_action := action, updated_at := now }

/-- Model of `Ticket.close`: requires status RESOLVED; sets CLOSED and leaves
the queue untouched. -/
def Ticket.close (t : Ticket) (now : Int) : Except String Ticket :=
  if t.status ≠ TicketStatus.RESOLVED then
    .error "InvalidStateTransitionError"
  else
    .ok { t with status := .CLOSED, updated_at := now }

/-- Model of `Ticket.add_tag`: appends the tag (and touches) only when absent. -/
def Ticket.add_tag (t : Ticket) (now : Int) (tag : String) : Ticket :=
  if t.tags.contains tag then t
  else { t with tags := t.tags ++ [tag], updated_at := now }

/-- Model of `Ticket.remove_tag`: removes the first occurrence (and touches)
only when present. -/
def Ticket.remove_tag (t : Ticket) (now : Int) (tag : String) : Ticket :=
  if t.tags.contains tag then
    { t with tags := t.tags.erase tag, updated_at := now }
  else t

/-- Model of `Ticket.clear_ai_data`: wipes reasoning, category, priority and
suggested assignee; `priority` is left as `None`. -/
def Ticket.clear_ai_data (t : Ticket) (now : Int) : Ticket :=
  { t with ai_reasoning := [], category := none, priority := none,
           suggested_assignee := none, updated_at := now }

/-- Wire form produced by `Ticket.to_dict` (app/models/ticket.py
lines 312-331): enum fields as their `.value` strings, timestamps as
abstract instants, content nested with its discriminator. -/
structure TicketDict where
  id : String
  created_at : Int
  updated_at : Int
  source : String
  priority : String
  category : Option String
  status : String
  current_queue : String
  content : ContentDict
  assignee : Option String
  tags : List String
  ai_reasoning : List (String × PyVal)
  resolution_action : String
  suggested_assignee : Option String
  title : String
  description : String

/-- Model of `Ticket.to_dict`.  Returns `none` when `priority` is `None`: the
source unconditionally reads `self._priority.value`, which raises
`AttributeError` on `None` (the only field accessed unguarded). -/
def Ticket.to_dict (t : Ticket) : Option TicketDict :=
  match t.priority with
  | none => none
  | some p =>
    some
      { id := t.id
        created_at := t.created_at
        updated_at := t.updated_at
        source := t.source.value
        priority := p.value
        category := t.category.map TicketCategory.value
        status := t.status.value
        current_queue := t.current_queue.value
        content := contentToDict t.content
        assignee := t.assignee
        tags := t.tags
        ai_reasoning := t.ai_reasoning
        resolution_action := t.resolution_action.value
        suggested_assignee := t.suggested_assignee
        title := t.titleProp
        description := t.descriptionProp }

/-- Model of `Ticket.from_dict` (app/models/ticket.py lines 337-365).  Returns
`none` when an enum string fails to parse (the `ValueError` the enum
constructors raise).  The `category` field follows the source's
truthiness test: a missing or empty string yields `None`. -/
def Ticket.from_dict (d : TicketDict) : Option Ticket := do
  let source ← TicketSource.parse d.source
  let priority ← TicketPriority.parse d.priority
  let category ←
    match d.category with
    | none => pure (none : Option TicketCategory)
    | some s =>
      if s = "" then pure none
      else
        match TicketCategory.parse s with
        | some c => pure (some c)
        | none => none
  let status ← TicketStatus.parse d.status
  let current_queue ← QueueType.parse d.current_queue
  let resolution_action ← AutoResolveAction.parse d.resolution_action
  pure
    { id := d.id
      created_at := d.created_at
      updated_at := d.updated_at
      source := source
      content := content_from_dict d.content
      priority := some priority
      category := category
      status := status
      current_queue := current_queue
      assignee := d.assignee
      tags := d.tags
      ai_reasoning := d.ai_reasoning
      resolution_action := resolution_action
      suggested_assignee := d.suggested_assignee
      title := some d.title
      description := some d.description }

/-- An entry in a queue (app/queues/manager.py, QueueEntry). -/
structure QueueEntry where
  ticket_id : String
  enqueued_at : Int
  priority_score : Int
deriving DecidableEq, Repr

/-- An audit log entry for a queue transition (app/queues/manager.py,
AuditLogEntry). -/
structure AuditLogEntry where
  timestamp : Int
  ticket_id : String
  from_queue : Option QueueType
  to_queue : QueueType
  reason : String
  actor : Option String
deriving DecidableEq, Repr

/-- The mutable state of the `QueueManager`: the five deques, the
id-to-queue index and the audit log.  All public operations mutate it
inside one critical section, so the sequential functions below are the
whole behaviour. -/
structure QMState where
  queues : QueueType → List QueueEntry
  ticket_queue_map : String → Option QueueType
  audit_log : List AuditLogEntry

/-- The empty manager state (`QueueManager.__init__`). -/
def QMState.initial : QMState :=
  { queues := fun _ => []
    ticket_queue_map := fun _ => none
    audit_log := [] }

/-- The `priority_scores` dictionary of
`QueueManager._calculate_priority_score`. -/
def priority_scores : TicketPriority → Int
  | .LOW => 1
  | .MEDIUM => 2
  | .HIGH => 3
  | .CRITICAL => 4

/-- Model of `QueueManager._calculate_priority_score`: priority weight looked
up with `priority_scores.get(ticket.priority, 2)` (default 2 when the
priority is not one of the four members, in particular when it is
`None`) times 100, plus an age bonus of `min(int(age_seconds / 60),
50)`.  `int()` truncates toward zero. -/
def calculate_priority_score (now : Int) (t : Ticket) : Int :=
  let base_score : Int :=
    (match t.priority with
     | some p => priority_scores p
     | none => 2) * 100
  let age_seconds := now - t.created_at
  let age_bonus := min (Int.tdiv age_seconds 60) 50
  base_score + age_bonus

/-- Model of `QueueManager.enqueue` (without the asynchronous triage trigger,
which runs after the critical section and is modelled separately by
`apply_triage_result`): appends a fresh entry, indexes it, logs an
audit line with `from_queue = None`, and returns the 1-based
position, i.e. the new length of the queue. -/
def QMState.enqueue (s : QMState) (now : Int) (t : Ticket) (queue : QueueType)
    (reason : String) (actor : Option String) : QMState × Nat :=
  let entry : QueueEntry :=
    { ticket_id := t.id
      enqueued_at := now
      priority_score := calculate_priority_score now t }
  let queues2 := fun q => if q = queue then s.queues q ++ [entry] else s.queues q
  let s2 : QMState :=
    { queues := queues2
      ticket_queue_map := fun i => if i = t.id then some queue else s.ticket_queue_map i
      audit_log := s.audit_log ++
        [{ timestamp := now
           ticket_id := t.id
           from_queue := none
           to_queue := queue
           reason := reason
           actor := actor }] }
  (s2, (queues2 queue).length)

/-- Model of `QueueManager.move_ticket`: finds the first entry with the given
id in the source queue; absent means `False` with no mutation;
otherwise removes it, appends a fresh entry (new enqueued-at,
recomputed score) to the destination, re-indexes, and logs one audit
line. -/
def QMState.move_ticket (s : QMState) (now : Int) (ticket_id : String)
    (from_queue to_queue : QueueType) (t : Ticket) (reason : String)
    (actor : Option String) : Bool × QMState :=
  let source_queue := s.queues from_queue
  match source_queue.find? (fun e => e.ticket_id == ticket_id) with
  | none => (false, s)
  | some entry_to_move =>
    let new_entry : QueueEntry :=
      { ticket_id := ticket_id
        enqueued_at := now
        priority_score := calculate_priority_score now t }
    let queues2 := fun q =>
      if q = from_queue then source_queue.erase entry_to_move else s.queues q
    let queues3 := fun q =>
      if q = to_queue then queues2 q ++ [new_entry] else queues2 q
    (true,
      { queues := queues3
        ticket_queue_map := fun i =>
          if i = ticket_id then some to_queue else s.ticket_queue_map i
        audit_log := s.audit_log ++
          [{ timestamp := now
             ticket_id := ticket_id
             from_queue := some from_queue
             to_queue := to_queue
             reason := reason
             actor := actor }] })

/-- The first entry of maximal priority score: the head of the list
after a stable descending sort by score (`entries.sort(...,
reverse=True)` followed by `entries[0]`). -/
def firstMaxEntry : List QueueEntry → Option QueueEntry
  | [] => none
  | e :: es =>
    match firstMaxEntry es with
    | none => some e
    | some m => if m.priority_score > e.priority_score then some m else some e

/-- Model of `QueueManager.dequeue`: empty queue yields `None`; with
`priority_based` and more than one entry, removes the first entry of
maximal score; otherwise pops the most recently appended entry
(FILO).  The index row of the removed id is dropped. -/
def QMState.dequeue (s : QMState) (queue : QueueType) (priority_based : Bool) :
    Option String × QMState :=
  let dq := s.queues queue
  match dq with
  | [] => (none, s)
  | _ =>
    let entry? :=
      if priority_based ∧ dq.length > 1 then firstMaxEntry dq
      else dq.getLast?
    match entry? with
    | none => (none, s)
    | some entry =>
      let dq2 :=
        if priority_based ∧ dq.length > 1 then dq.erase entry
        else dq.dropLast
      (some entry.ticket_id,
        { s with
          queues := fun q => if q = queue then dq2 else s.queues q
          ticket_queue_map := fun i =>
            if i = entry.ticket_id then none else s.ticket_queue_map i })

/-- Model of `QueueManager.remove_from_queue`: drops the first entry with the
id and its index row; no audit line. -/
def QMState.remove_from_queue (s : QMState) (ticket_id : String)
    (queue : QueueType) : Bool × QMState :=
  match (s.queues queue).find? (fun e => e.ticket_id == ticket_id) with
  | none => (false, s)
  | some entry =>
    (true,
      { s with
        queues := fun q =>
          if q = queue then (s.queues queue).erase entry else s.queues q
        ticket_queue_map := fun i =>
          if i = ticket_id then none else s.ticket_queue_map i })

/-- The triage result consumed by `_apply_triage_result`: the raw
dictionary (merged into `ai_reasoning`) and its typed projections.
`confidence` is `result.get("confidence", 0)`. -/
structure TriageResult where
  raw : List (String × PyVal)
  priority : Option String
  category : Option String
  suggested_assignee : Option String
  tags : List String
  confidence : ℚ

/-- Python truthiness of an optional string: `None` and the empty
string are falsy. -/
def truthyStr : Option String → Bool
  | none => false
  | some s => s ≠ ""

/-- The field-update phase of `QueueManager._apply_triage_result`
(app/queues/manager.py lines 134-198): merges reasoning, applies
valid priority/category strings (invalid ones silently ignored),
records the suggested assignee, and adds AI tags. -/
def apply_triage_fields (now : Int) (ticket : Ticket)
    (result : TriageResult) : Ticket :=
  let t1 := ticket.log_reasoning now result.raw
  let t2 :=
    match result.priority with
    | some p =>
      if p = "" then t1
      else
        match TicketPriority.parse p with
        | some pr => t1.update_priority now pr
        | none => t1
    | none => t1
  let t3 :=
    match result.category with
    | some c =>
      if c = "" then t2
      else
        match TicketCategory.parse c with
        | some cat => t2.set_category now cat
        | none => t2
    | none => t2
  let t4 :=
    match result.suggested_assignee with
    | some a => if a = "" then t3 else t3.set_suggested_assignee now a
    | none => t3
  result.tags.foldl (fun t tag => t.add_tag now tag) t4

/-- The routing step of `_apply_triage_result`: after the field
updates, a confidence of at least 0.8 assigns (or, with no named
assignee, directly sets status ASSIGNED) and moves INBOX to
ASSIGNMENT; below 0.8 it moves INBOX to TRIAGE. -/
def apply_triage_result (s : QMState) (now : Int) (ticket : Ticket)
    (result : TriageResult) : QMState × Ticket :=
  let t5 := apply_triage_fields now ticket result
  let conf := result.confidence
  if conf ≥ (8 : ℚ) / 10 then
    let t6 :=
      match result.suggested_assignee with
      | some a => if a = "" then t5.update_status now .ASSIGNED else t5.assign now a
      | none => t5.update_status now .ASSIGNED
    let moved := s.move_ticket now t6.id .INBOX .ASSIGNMENT t6
      ("AI Auto-Triage (Confidence: " ++ toString conf ++ ")") none
    (moved.2, t6)
  else
    let moved := s.move_ticket now t5.id .INBOX .TRIAGE t5
      ("AI Triage Needed (Confidence: " ++ toString conf ++ ")") none
    (moved.2, t5)

/-- The connection manager's state (app/websockets/manager.py,
ConnectionManager): the registered client ids and the
channel-to-subscribers index.  A channel absent from the index maps to
the empty subscriber list. -/
structure ConnState where
  connections : List String
  channel_subscribers : String → List String

/-- The inner loop of `broadcast_event` over one channel's subscriber
snapshot: a client not yet in `sent_clients` and still connected is
sent the message (sends are assumed to succeed, the hypothesis of the
dedup claim) and recorded in `sent_clients`. -/
def broadcastChannelPass (st : ConnState) (subs : List String)
    (sent_clients : List String) : List String :=
  subs.foldl
    (fun acc client_id =>
      if client_id ∉ acc ∧ client_id ∈ st.connections then
        acc ++ [client_id]
      else acc)
    sent_clients

/-- Model of `ConnectionManager.broadcast_event` with an explicit channel list
(app/websockets/manager.py lines 141-169): iterates the channels,
sending the message at most once per client.  The returned list is the
sequence of clients the message was delivered to, in send order; its
length is the `total_sent` the source returns. -/
def broadcast_event (st : ConnState) (channels : List String) : List String :=
  channels.foldl
    (fun sent_clients channel =>
      broadcastChannelPass st (st.channel_subscribers channel) sent_clients)
    []

/-- Model of `TicketRepository.find` restricted to a status filter, as the
auto-close task calls it: filter by status, stable sort by
`created_at` descending, then slice `[offset : offset + limit]`
(defaults `limit=100`, `offset=0`). -/
def repository_find_by_status (tickets : List Ticket) (status : TicketStatus)
    (limit : Nat := 100) (offset : Nat := 0) : List Ticket :=
  let results := tickets.filter (fun t => t.status == status)
  let sorted := results.mergeSort (fun a b => b.created_at ≤ a.created_at)
  (sorted.drop offset).take limit

/-- The `ticket.updated` event published by the auto-close task:
ticket id plus the changes payload. -/
structure TicketUpdatedEvent where
  ticket_id : String
  changes : List (String × String)
deriving DecidableEq, Repr

/-- One pass of the auto-close loop body (app/tasks.py lines 19-59):
fetch RESOLVED tickets through `repository.find`, and for each whose
`updated_at` lies strictly before `now - 5 minutes`, close it, save
it, and publish `ticket.updated` with a `status: CLOSED` payload.
Per-ticket errors are swallowed.  Returns the closed tickets in
processing order and the published events. -/
def run_auto_close_body (now : Int) (tickets : List Ticket) :
    List Ticket × List TicketUpdatedEvent :=
  let resolved_tickets := repository_find_by_status tickets .RESOLVED
  let cutoff_time := now - 5 * 60
  resolved_tickets.foldl
    (fun acc t =>
      if t.updated_at < cutoff_time then
        match t.close now with
        | .ok t2 =>
          (acc.1 ++ [t2],
           acc.2 ++ [{ ticket_id := t2.id, changes := [("status", "CLOSED")] }])
        | .error _ => acc
      else acc)
    ([], [])

/-- The mutating operations the ticket exposes, as one syntactic type,
so that properties quantified over "every operation" can be stated. -/
inductive TicketOp where
  | moveToQueue (q : QueueType)
  | assign (a : String)
  | unassign
  | updatePriority (p : TicketPriority)
  | updateStatus (st : TicketStatus)
  | updateTitle (s : String)
  | updateDescription (s : String)
  | setCategory (c : TicketCategory)
  | logReasoning (r : List (String × PyVal))
  | setSuggestedAssignee (a : String)
  | markResolved (a : AutoResolveAction)
  | close
  | addTag (s : String)
  | removeTag (s : String)
  | clearAiData

/-- Interpretation of a `TicketOp` on a ticket; `Except` carries the
`InvalidStateTransitionError` of the fallible operations. -/
def TicketOp.apply (op : TicketOp) (t : Ticket) (now : Int) : Except String Ticket :=
  match op with
  | .moveToQueue q => t.move_to_queue now q
  | .assign a => .ok (t.assign now a)
  | .unassign => .ok (t.unassign now)
  | .updatePriority p => .ok (t.update_priority now p)
  | .updateStatus st => .ok (t.update_status now st)
  | .updateTitle s => .ok (t.update_title now s)
  | .updateDescription s => .ok (t.update_description now s)
  | .setCategory c => .ok (t.set_category now c)
  | .logReasoning r => .ok (t.log_reasoning now r)
  | .setSuggestedAssignee a => .ok (t.set_suggested_assignee now a)
  | .markResolved a => t.mark_resolved now a
  | .close => t.close now
  | .addTag s => .ok (t.add_tag now s)
  | .removeTag s => .ok (t.remove_tag now s)
  | .clearAiData => .ok (t.clear_ai_data now)

/-- Whether the operation is the raw `update_status` setter. -/
def TicketOp.isUpdateStatus : TicketOp → Bool
  | .updateStatus _ => true
  | _ => false

/-- Whether the operation is `assign`. -/
def TicketOp.isAssign : TicketOp → Bool
  | .assign _ => true
  | _ => false

/-- The queue-to-status coupling invariant on a ticket's own fields:
the status coupled to the current queue, except in status CLOSED. -/
def Coupled (t : Ticket) : Prop :=
  t.status = TicketStatus.CLOSED ∨ QUEUE_STATUS_MAP t.current_queue = t.status

/-- Number of entries carrying the given ticket id in one queue
sequence. -/
def entryCount (l : List QueueEntry) (id : String) : Nat :=
  (l.filter (fun e => e.ticket_id == id)).length

/-- Number of entries carrying the given ticket id across the five
queue sequences together. -/
def QMState.countId (s : QMState) (id : String) : Nat :=
  (QueueType.all.map (fun q => entryCount (s.queues q) id)).sum

/-- True when no queue holds an entry for the given ticket id. -/
def QMState.idAbsent (s : QMState) (id : String) : Bool :=
  QueueType.all.all (fun q => (s.queues q).all (fun e => e.ticket_id != id))

/-- Manager states reachable by its operations, with every `enqueue`
guarded by the ticket being absent from all queues (fresh tickets
only); `move_ticket`, `dequeue` and `remove_from_queue` are
unconstrained. -/
inductive ReachableGuarded : QMState → Prop where
  | init : ReachableGuarded QMState.initial
  | enqueue (s : QMState) (now : Int) (t : Ticket) (q : QueueType)
      (reason : String) (actor : Option String) :
      ReachableGuarded s → s.idAbsent t.id = true →
      ReachableGuarded (s.enqueue now t q reason actor).1
  | dequeue (s : QMState) (q : QueueType) (pb : Bool) :
      ReachableGuarded s → ReachableGuarded (s.dequeue q pb).2
  | move (s : QMState) (now : Int) (id : String) (fq tq : QueueType)
      (t : Ticket) (reason : String) (actor : Option String) :
      ReachableGuarded s →
      ReachableGuarded (s.move_ticket now id fq tq t reason actor).2
  | remove (s : QMState) (id : String) (q : QueueType) :
      ReachableGuarded s → ReachableGuarded (s.remove_from_queue id q).2

/-- A minimal concrete content value, for concrete evaluations. -/
def sampleContent : TicketContent :=
  .sms { sender_phone_number := "15550100"
         recipient_phone_number := "15550101"
         message_body := "help"
         timestamp := 0
         message_sid := none }

/-- A minimal concrete freshly ingested ticket (the state
`Ticket.create` produces). -/
def sampleTicket : Ticket :=
  { id := "t0"
    created_at := 0
    updated_at := 0
    source := .WEBHOOK
    content := sampleContent
    priority := some .MEDIUM
    category := none
    status := .INBOX
    current_queue := .INBOX
    assignee := none
    tags := []
    ai_reasoning := []
    resolution_action := .NONE
    suggested_assignee := none
    title := none
    description := none }

/-- A concrete resolved ticket whose `updated_at` is exactly 300
seconds before the reference instant 1000. -/
def resolvedTicket : Ticket :=
  { sampleTicket with id := "t1", status := .RESOLVED,
                      current_queue := .RESOLUTION, updated_at := 700 }

/-- A concrete resolved ticket whose `updated_at` is 400 seconds
before the reference instant 1000. -/
def oldResolvedTicket : Ticket :=
  { sampleTicket with id := "t2", status := .RESOLVED,
                      current_queue := .RESOLUTION, updated_at := 600 }

/-- Manager state with `sampleTicket` enqueued in INBOX. -/
def sampleQMState : QMState :=
  (QMState.initial.enqueue 0 sampleTicket .INBOX "enqueued" none).1

/-- A high-confidence triage result naming an assignee. -/
def sampleTriageResult : TriageResult :=
  { raw := []
    priority := some "HIGH"
    category := some "BILLING"
    suggested_assignee := some "user-3"
    tags := []
    confidence := 9 / 10 }

/-- Manager state produced by enqueueing the same ticket twice. -/
def doubleEnqueueState : QMState :=
  ((QMState.initial.enqueue 0 sampleTicket .TRIAGE "enqueued" none).1.enqueue 1
    sampleTicket .TRIAGE "enqueued" none).1

/-- C10: after `clear_ai_data()` the priority field is `None` rather
than one of the four levels, a subsequent `to_dict()` fails (it reads
`priority.value` on `None`), and the priority-score computation
silently treats the ticket as MEDIUM (weight 2, the dictionary
default). -/
theorem clear_ai_data_leaves_priority_none (t : Ticket) (now now2 : Int) :
    (t.clear_ai_data now).priority = none ∧
    (t.clear_ai_data now).to_dict = none ∧
    calculate_priority_score now2 (t.clear_ai_data now) =
      calculate_priority_score now2 (t.update_priority now .MEDIUM) := by
  refine ⟨rfl, rfl, ?_⟩
  simp [calculate_priority_score, Ticket.clear_ai_data, Ticket.update_priority,
    priority_scores]

/-- C8: for a ticket with one of the four priorities and a
non-future `created_at`, the priority score equals the priority weight
(LOW 1, MEDIUM 2, HIGH 3, CRITICAL 4) times 100 plus
`min(⌊age_seconds/60⌋, 50)`, and lies in `[100, 450]`. -/
theorem priority_score_formula_and_range (now : Int) (t : Ticket)
    (p : TicketPriority) (h1 : t.priority = some p)
    (h2 : t.created_at ≤ now) :
    calculate_priority_score now t =
      priority_scores p * 100 +
        min (Int.tdiv (now - t.created_at) 60) 50 ∧
    100 ≤ calculate_priority_score now t ∧
    calculate_priority_score now t ≤ 450 := by
  have hage : (0 : Int) ≤ now - t.created_at := by omega
  have hdiv : (0 : Int) ≤ Int.tdiv (now - t.created_at) 60 :=
    Int.tdiv_nonneg hage (by norm_num)
  have hmin1 : (0 : Int) ≤ min (Int.tdiv (now - t.created_at) 60) 50 :=
    le_min hdiv (by norm_num)
  have hmin2 : min (Int.tdiv (now - t.created_at) 60) 50 ≤ 50 :=
    min_le_right _ _
  have hw1 : (1 : Int) ≤ priority_scores p := by
    cases p <;> norm_num [priority_scores]
  have hw2 : priority_scores p ≤ 4 := by
    cases p <;> norm_num [priority_scores]
  unfold calculate_priority_score
  simp only [h1]
  exact ⟨by trivial, by omega, by omega⟩

/-- Witness for C8 at a concrete ticket and instant. -/
theorem priority_score_formula_and_range_witness :
    calculate_priority_score 90 sampleTicket = 2 * 100 + 1 ∧
    100 ≤ calculate_priority_score 90 sampleTicket ∧
    calculate_priority_score 90 sampleTicket ≤ 450 := by
  have h := priority_score_formula_and_range 90 sampleTicket .MEDIUM rfl
    (by norm_num [sampleTicket])
  refine ⟨?_, h.2.1, h.2.2⟩
  rw [h.1]
  decide

/-- C1 (counterexample): `update_status` changes the status without
touching the queue, so on a coupled INBOX/INBOX ticket a direct status
update to RESOLVED leaves status RESOLVED (not CLOSED) paired with
queue INBOX, breaking the queue-status coupling between the ticket's
own fields. -/
theorem update_status_breaks_coupling :
    Coupled sampleTicket ∧
    (sampleTicket.update_status 5 .RESOLVED).status = .RESOLVED ∧
    (sampleTicket.update_status 5 .RESOLVED).current_queue = .INBOX ∧
    ¬ Coupled (sampleTicket.update_status 5 .RESOLVED) := by
  refine ⟨Or.inr rfl, rfl, rfl, ?_⟩
  unfold Coupled Ticket.update_status
  decide

/-- C1 (amended): every ticket operation except the raw
`update_status` setter preserves the queue-status coupling between
the ticket's own fields (the CLOSED status being exempt). -/
theorem ticket_ops_preserve_coupling (op : TicketOp) (t t2 : Ticket) (now : Int)
    (hop : op.isUpdateStatus = false) (hc : Coupled t)
    (happ : op.apply t now = .ok t2) : Coupled t2 := by
  cases op
  case updateStatus st => simp [TicketOp.isUpdateStatus] at hop
  case moveToQueue q =>
    simp only [TicketOp.apply] at happ
    unfold Ticket.move_to_queue at happ
    split at happ
    · next hq =>
      simp only [Except.ok.injEq] at happ
      subst happ
      subst hq
      exact Or.inr rfl
    · split at happ
      · cases happ
      · simp only [Except.ok.injEq] at happ
        subst happ
        exact Or.inr rfl
  case markResolved a =>
    simp only [TicketOp.apply] at happ
    unfold Ticket.mark_resolved at happ
    split at happ
    · cases happ
    · simp only [Except.ok.injEq] at happ
      subst happ
      exact Or.inr rfl
  case close =>
    simp only [TicketOp.apply] at happ
    unfold Ticket.close at happ
    split at happ
    · cases happ
    · simp only [Except.ok.injEq] at happ
      subst happ
      exact Or.inl rfl
  case assign a =>
    simp only [TicketOp.apply, Except.ok.injEq] at happ
    subst happ
    unfold Ticket.assign
    split
    · exact Or.inr rfl
    · exact hc
  case unassign =>
    simp only [TicketOp.apply, Except.ok.injEq] at happ
    subst happ
    exact Or.inr rfl
  case addTag s =>
    simp only [TicketOp.apply, Except.ok.injEq] at happ
    subst happ
    unfold Ticket.add_tag
    split
    · exact hc
    · exact hc
  case removeTag s =>
    simp only [TicketOp.apply, Except.ok.injEq] at happ
    subst happ
    unfold Ticket.remove_tag
    split
    · exact hc
    · exact hc
  all_goals simp only [TicketOp.apply, Except.ok.injEq] at happ
  all_goals subst happ
  all_goals exact hc

/-- Witness for the amended C1 at a concrete operation and ticket. -/
theorem ticket_ops_preserve_coupling_witness :
    Coupled (sampleTicket.unassign 5) :=
  ticket_ops_preserve_coupling .unassign sampleTicket (sampleTicket.unassign 5) 5
    rfl (Or.inr rfl) rfl

/-- C2 (counterexample): `assign` on an INBOX ticket performs the
status change INBOX to ASSIGNED, which is neither in the legal
transition table for INBOX nor a move to INBOX. -/
theorem assign_from_inbox_outside_transition_table :
    sampleTicket.status = .INBOX ∧
    (TicketOp.assign "agent-1").apply sampleTicket 5 =
      .ok (sampleTicket.assign 5 "agent-1") ∧
    (sampleTicket.assign 5 "agent-1").status = .ASSIGNED ∧
    ¬ (TicketStatus.ASSIGNED ∈ VALID_TRANSITIONS TicketStatus.INBOX ∨
       TicketStatus.ASSIGNED = TicketStatus.INBOX) := by
  refine ⟨rfl, rfl, ?_, by decide⟩
  unfold Ticket.assign
  decide

/-- C2 (amended): every status transition executed by a ticket
operation other than `update_status` and other than `assign` on an
INBOX ticket either leaves the status unchanged, lands in the legal
transition table for the old status, or is a move to INBOX. -/
theorem ticket_ops_transitions_legal (op : TicketOp) (t t2 : Ticket) (now : Int)
    (h1 : op.isUpdateStatus = false)
    (h2 : op.isAssign = true → t.status ≠ TicketStatus.INBOX)
    (happ : op.apply t now = .ok t2) :
    t2.status = t.status ∨ t2.status ∈ VALID_TRANSITIONS t.status ∨
      t2.status = TicketStatus.INBOX := by
  cases op
  case updateStatus st => simp [TicketOp.isUpdateStatus] at h1
  case moveToQueue q =>
    simp only [TicketOp.apply] at happ
    unfold Ticket.move_to_queue at happ
    split at happ
    · simp only [Except.ok.injEq] at happ
      subst happ
      exact Or.inr (Or.inr rfl)
    · split at happ
      · cases happ
      · next hcan =>
        simp only [Except.ok.injEq] at happ
        subst happ
        refine Or.inr (Or.inl ?_)
        have : Ticket.can_transition_to t (QUEUE_STATUS_MAP q) = true := by
          revert hcan
          by_cases hb : Ticket.can_transition_to t (QUEUE_STATUS_MAP q) = true <;>
            simp [hb]
        simpa [Ticket.can_transition_to, List.contains, List.elem_iff] using this
  case markResolved a =>
    simp only [TicketOp.apply] at happ
    unfold Ticket.mark_resolved at happ
    split at happ
    · cases happ
    · next hcan =>
      simp only [Except.ok.injEq] at happ
      subst happ
      refine Or.inr (Or.inl ?_)
      have : Ticket.can_transition_to t .RESOLVED = true := by
        revert hcan
        by_cases hb : Ticket.can_transition_to t .RESOLVED = true <;> simp [hb]
      simpa [Ticket.can_transition_to, List.contains, List.elem_iff] using this
  case close =>
    simp only [TicketOp.apply] at happ
    unfold Ticket.close at happ
    split at happ
    · cases happ
    · next hres =>
      simp only [Except.ok.injEq] at happ
      subst happ
      have hst : t.status = TicketStatus.RESOLVED := by
        by_contra hne
        exact hres (by simpa using hne)
      rw [hst]
      exact Or.inr (Or.inl
        (show TicketStatus.CLOSED ∈ VALID_TRANSITIONS TicketStatus.RESOLVED by
          decide))
  case assign a =>
    simp only [TicketOp.apply, Except.ok.injEq] at happ
    subst happ
    unfold Ticket.assign
    split
    · next hcond =>
      rcases hcond with hcond | hcond
      · exact absurd hcond (h2 rfl)
      · rw [hcond]
        exact Or.inr (Or.inl
          (show TicketStatus.ASSIGNED ∈ VALID_TRANSITIONS TicketStatus.TRIAGE_PENDING
            by decide))
    · exact Or.inl rfl
  case unassign =>
    simp only [TicketOp.apply, Except.ok.injEq] at happ
    subst happ
    exact Or.inr (Or.inr rfl)
  case addTag s =>
    simp only [TicketOp.apply, Except.ok.injEq] at happ
    subst happ
    unfold Ticket.add_tag
    split
    · exact Or.inl rfl
    · exact Or.inl rfl
  case removeTag s =>
    simp only [TicketOp.apply, Except.ok.injEq] at happ
    subst happ
    unfold Ticket.remove_tag
    split
    · exact Or.inl rfl
    · exact Or.inl rfl
  all_goals simp only [TicketOp.apply, Except.ok.injEq] at happ
  all_goals subst happ
  all_goals exact Or.inl rfl

/-- Witness for the amended C2 at a concrete operation and ticket. -/
theorem ticket_ops_transitions_legal_witness :
    (sampleTicket.unassign 5).status = sampleTicket.status ∨
    (sampleTicket.unassign 5).status ∈ VALID_TRANSITIONS sampleTicket.status ∨
    (sampleTicket.unassign 5).status = TicketStatus.INBOX :=
  ticket_ops_transitions_legal .unassign sampleTicket (sampleTicket.unassign 5) 5
    rfl (fun h => Bool.noConfusion h) rfl

theorem source_parse_value (x : TicketSource) : TicketSource.parse x.value = some x := by
  cases x <;> rfl

theorem priority_parse_value (x : TicketPriority) : TicketPriority.parse x.value = some x := by
  cases x <;> rfl

theorem category_parse_value (x : TicketCategory) : TicketCategory.parse x.value = some x := by
  cases x <;> rfl

theorem category_value_ne_empty (x : TicketCategory) : x.value ≠ "" := by
  cases x <;> decide

theorem status_parse_value (x : TicketStatus) : TicketStatus.parse x.value = some x := by
  cases x <;> rfl

theorem queue_parse_value (x : QueueType) : QueueType.parse x.value = some x := by
  cases x <;> rfl

theorem action_parse_value (x : AutoResolveAction) :
    AutoResolveAction.parse x.value = some x := by
  cases x <;> rfl

/-- The content factory inverts the content `to_dict` dispatch. -/
theorem content_roundtrip (c : TicketContent) :
    content_from_dict (contentToDict c) = c := by
  cases c <;> rfl

/-- When the `title` property falls back to the content and still
produces the empty string, the fallback itself is empty. -/
theorem titleFallback_of_titleProp_empty (t : Ticket) (h : t.titleProp = "") :
    titleFallback t.content = "" := by
  unfold Ticket.titleProp at h
  cases ht : t.title with
  | none => rw [ht] at h; exact h
  | some s =>
    rw [ht] at h
    by_cases hs : s = ""
    · simpa [hs] using h
    · simp [hs] at h

/-- Analogue of `titleFallback_of_titleProp_empty` for descriptions. -/
theorem descriptionFallback_of_descriptionProp_empty (t : Ticket)
    (h : t.descriptionProp = "") : descriptionFallback t.content = "" := by
  unfold Ticket.descriptionProp at h
  cases ht : t.description with
  | none => rw [ht] at h; exact h
  | some s =>
    rw [ht] at h
    by_cases hs : s = ""
    · simpa [hs] using h
    · simp [hs] at h

/-- A ticket whose stored title is another ticket's title property and
whose content agrees has the same title property. -/
theorem titleProp_of_stored (t t2 : Ticket) (h1 : t2.title = some t.titleProp)
    (h2 : t2.content = t.content) : t2.titleProp = t.titleProp := by
  have key : t2.titleProp =
      if t.titleProp = "" then titleFallback t2.content else t.titleProp := by
    show (match t2.title with
          | some s => if s = "" then titleFallback t2.content else s
          | none => titleFallback t2.content) = _
    rw [h1]
  rw [key, h2]
  by_cases h0 : t.titleProp = ""
  · rw [if_pos h0, titleFallback_of_titleProp_empty t h0, h0]
  · rw [if_neg h0]

/-- Analogue of `titleProp_of_stored` for descriptions. -/
theorem descriptionProp_of_stored (t t2 : Ticket)
    (h1 : t2.description = some t.descriptionProp) (h2 : t2.content = t.content) :
    t2.descriptionProp = t.descriptionProp := by
  have key : t2.descriptionProp =
      if t.descriptionProp = "" then descriptionFallback t2.content
      else t.descriptionProp := by
    show (match t2.description with
          | some s => if s = "" then descriptionFallback t2.content else s
          | none => descriptionFallback t2.content) = _
    rw [h1]
  rw [key, h2]
  by_cases h0 : t.descriptionProp = ""
  · rw [if_pos h0, descriptionFallback_of_descriptionProp_empty t h0, h0]
  · rw [if_neg h0]

/-- C5: `from_dict(to_dict(t))` succeeds for every ticket with a set
priority and every content variant, and preserves every observable
field: identity, timestamps, source, priority, category, status,
queue, assignee, tags, AI reasoning, resolution action, suggested
assignee, the whole content value, and the derived title and
description properties. -/
theorem to_dict_from_dict_roundtrip (t : Ticket) (p : TicketPriority)
    (h : t.priority = some p) :
    ∃ t2 : Ticket, t.to_dict.bind Ticket.from_dict = some t2 ∧
      t2.id = t.id ∧ t2.created_at = t.created_at ∧ t2.updated_at = t.updated_at ∧
      t2.source = t.source ∧ t2.priority = t.priority ∧ t2.category = t.category ∧
      t2.status = t.status ∧ t2.current_queue = t.current_queue ∧
      t2.assignee = t.assignee ∧ t2.tags = t.tags ∧
      t2.ai_reasoning = t.ai_reasoning ∧
      t2.resolution_action = t.resolution_action ∧
      t2.suggested_assignee = t.suggested_assignee ∧
      t2.content = t.content ∧
      t2.titleProp = t.titleProp ∧ t2.descriptionProp = t.descriptionProp := by
  refine ⟨{ t with priority := some p,
                   content := content_from_dict (contentToDict t.content),
                   title := some t.titleProp,
                   description := some t.descriptionProp }, ?_, ?_⟩
  · unfold Ticket.to_dict
    rw [h]
    unfold Ticket.from_dict
    simp only [Option.bind_some, Option.some_bind, source_parse_value,
      priority_parse_value, status_parse_value, queue_parse_value,
      action_parse_value, Option.bind_eq_bind]
    cases hc : t.category with
    | none => simp
    | some c =>
      simp [category_parse_value, category_value_ne_empty c]
  · refine ⟨rfl, rfl, rfl, rfl, h.symm, rfl, rfl, rfl, rfl, rfl, rfl, rfl, rfl,
      content_roundtrip t.content, ?_, ?_⟩
    · exact titleProp_of_stored t _ rfl (content_roundtrip t.content)
    · exact descriptionProp_of_stored t _ rfl (content_roundtrip t.content)

/-- Witness for C5 at a concrete ticket. -/
theorem to_dict_from_dict_roundtrip_witness :
    ∃ t2 : Ticket, sampleTicket.to_dict.bind Ticket.from_dict = some t2 ∧
      t2.id = sampleTicket.id ∧ t2.created_at = sampleTicket.created_at ∧
      t2.updated_at = sampleTicket.updated_at ∧
      t2.source = sampleTicket.source ∧ t2.priority = sampleTicket.priority ∧
      t2.category = sampleTicket.category ∧ t2.status = sampleTicket.status ∧
      t2.current_queue = sampleTicket.current_queue ∧
      t2.assignee = sampleTicket.assignee ∧ t2.tags = sampleTicket.tags ∧
      t2.ai_reasoning = sampleTicket.ai_reasoning ∧
      t2.resolution_action = sampleTicket.resolution_action ∧
      t2.suggested_assignee = sampleTicket.suggested_assignee ∧
      t2.content = sampleTicket.content ∧
      t2.titleProp = sampleTicket.titleProp ∧
      t2.descriptionProp = sampleTicket.descriptionProp :=
  to_dict_from_dict_roundtrip sampleTicket .MEDIUM rfl

/-- C6: `move_ticket` with no entry for the id in the source queue
returns false and leaves the whole state (all five queue sequences,
the index, the audit log) unchanged; with the entry present it returns
true, removes it from the source, appends a fresh entry (new
enqueued-at, recomputed score) to the destination, re-points the
index, leaves the other queues alone, and appends exactly one audit
entry. -/
theorem move_ticket_spec (s : QMState) (now : Int) (id : String)
    (fq tq : QueueType) (t : Ticket) (reason : String) (actor : Option String) :
    ((s.queues fq).find? (fun e => e.ticket_id == id) = none →
      (s.move_ticket now id fq tq t reason actor).1 = false ∧
      (s.move_ticket now id fq tq t reason actor).2 = s) ∧
    (∀ e, (s.queues fq).find? (fun e2 => e2.ticket_id == id) = some e →
      (s.move_ticket now id fq tq t reason actor).1 = true ∧
      (s.move_ticket now id fq tq t reason actor).2.queues tq =
        (if tq = fq then (s.queues fq).erase e else s.queues tq) ++
          [{ ticket_id := id, enqueued_at := now,
             priority_score := calculate_priority_score now t }] ∧
      (fq ≠ tq →
        (s.move_ticket now id fq tq t reason actor).2.queues fq =
          (s.queues fq).erase e) ∧
      (∀ q, q ≠ fq → q ≠ tq →
        (s.move_ticket now id fq tq t reason actor).2.queues q = s.queues q) ∧
      (s.move_ticket now id fq tq t reason actor).2.ticket_queue_map id =
        some tq ∧
      (∀ i, i ≠ id →
        (s.move_ticket now id fq tq t reason actor).2.ticket_queue_map i =
          s.ticket_queue_map i) ∧
      (s.move_ticket now id fq tq t reason actor).2.audit_log =
        s.audit_log ++
          [{ timestamp := now, ticket_id := id, from_queue := some fq,
             to_queue := tq, reason := reason, actor := actor }]) := by
  simp only [QMState.move_ticket]
  constructor
  · intro hfind
    rw [hfind]
    exact ⟨rfl, rfl⟩
  · intro e hfind
    rw [hfind]
    refine ⟨rfl, ?_, ?_, ?_, ?_, ?_, rfl⟩
    · by_cases h : tq = fq <;> simp [h]
    · intro hne
      simp [hne]
    · intro q h1 h2
      simp [h1, h2]
    · simp
    · intro i hi
      simp [hi]

/-- Witness for C6: moving the enqueued sample ticket out of INBOX
succeeds and re-points the index to TRIAGE. -/
theorem move_ticket_spec_witness :
    (sampleQMState.move_ticket 2 "t0" .INBOX .TRIAGE sampleTicket "m" none).1 =
      true ∧
    (sampleQMState.move_ticket 2 "t0" .INBOX .TRIAGE sampleTicket "m"
        none).2.ticket_queue_map "t0" = some .TRIAGE := by
  have hf : (sampleQMState.queues QueueType.INBOX).find?
      (fun e2 => e2.ticket_id == "t0") =
      some { ticket_id := "t0", enqueued_at := 0, priority_score := 200 } := by
    decide
  have h := (move_ticket_spec sampleQMState 2 "t0" .INBOX .TRIAGE sampleTicket
    "m" none).2 { ticket_id := "t0", enqueued_at := 0, priority_score := 200 } hf
  exact ⟨h.1, h.2.2.2.2.1⟩

/-- Membership in the per-channel send loop: a client ends up in the
sent set iff it was already there, or it is a connected subscriber of
the channel. -/
theorem mem_broadcastChannelPass (st : ConnState) (subs : List String)
    (sent : List String) (x : String) :
    x ∈ broadcastChannelPass st subs sent ↔
      x ∈ sent ∨ (x ∈ subs ∧ x ∈ st.connections) := by
  induction subs generalizing sent with
  | nil => simp [broadcastChannelPass]
  | cons a rest ih =>
    have hstep : broadcastChannelPass st (a :: rest) sent =
        broadcastChannelPass st rest
          (if a ∉ sent ∧ a ∈ st.connections then sent ++ [a] else sent) := rfl
    rw [hstep, ih]
    by_cases hcond : a ∉ sent ∧ a ∈ st.connections
    · rw [if_pos hcond]
      simp only [List.mem_append, List.mem_cons, List.not_mem_nil, or_false]
      constructor
      · rintro ((hx | rfl) | ⟨h1, h2⟩)
        · exact Or.inl hx
        · exact Or.inr ⟨Or.inl rfl, hcond.2⟩
        · exact Or.inr ⟨Or.inr h1, h2⟩
      · rintro (hx | ⟨rfl | h1, h2⟩)
        · exact Or.inl (Or.inl hx)
        · exact Or.inl (Or.inr rfl)
        · exact Or.inr ⟨h1, h2⟩
    · rw [if_neg hcond]
      rw [not_and_or, not_not] at hcond
      simp only [List.mem_cons]
      constructor
      · rintro (hx | ⟨h1, h2⟩)
        · exact Or.inl hx
        · exact Or.inr ⟨Or.inr h1, h2⟩
      · rintro (hx | ⟨rfl | h1, h2⟩)
        · exact Or.inl hx
        · rcases hcond with hmem | hnc
          · exact Or.inl hmem
          · exact absurd h2 hnc
        · exact Or.inr ⟨h1, h2⟩

/-- The per-channel send loop never records a client twice. -/
theorem nodup_broadcastChannelPass (st : ConnState) (subs : List String)
    (sent : List String) (h : sent.Nodup) :
    (broadcastChannelPass st subs sent).Nodup := by
  induction subs generalizing sent with
  | nil => exact h
  | cons a rest ih =>
    have hstep : broadcastChannelPass st (a :: rest) sent =
        broadcastChannelPass st rest
          (if a ∉ sent ∧ a ∈ st.connections then sent ++ [a] else sent) := rfl
    rw [hstep]
    apply ih
    split
    · next hcond => simpa [List.nodup_append] using ⟨h, hcond.1⟩
    · exact h

/-- Membership across the whole broadcast, generalized over the
accumulated sent set. -/
theorem mem_broadcast_event_aux (st : ConnState) (channels : List String)
    (init : List String) (x : String) :
    x ∈ channels.foldl
        (fun sent ch => broadcastChannelPass st (st.channel_subscribers ch) sent)
        init ↔
      x ∈ init ∨ (x ∈ st.connections ∧
        ∃ ch ∈ channels, x ∈ st.channel_subscribers ch) := by
  induction channels generalizing init with
  | nil => simp
  | cons ch rest ih =>
    rw [List.foldl_cons, ih, mem_broadcastChannelPass]
    constructor
    · rintro ((hx | ⟨h1, h2⟩) | ⟨h1, ch2, h2, h3⟩)
      · exact Or.inl hx
      · exact Or.inr ⟨h2, ch, List.mem_cons_self ch rest, h1⟩
      · exact Or.inr ⟨h1, ch2, List.mem_cons_of_mem ch h2, h3⟩
    · rintro (hx | ⟨h1, ch2, h2, h3⟩)
      · exact Or.inl (Or.inl hx)
      · rcases List.mem_cons.mp h2 with rfl | h2
        · exact Or.inl (Or.inr ⟨h3, h1⟩)
        · exact Or.inr ⟨h1, ch2, h2, h3⟩

/-- The whole broadcast never records a client twice. -/
theorem nodup_broadcast_event (st : ConnState) (channels : List String) :
    (broadcast_event st channels).Nodup := by
  unfold broadcast_event
  generalize hinit : ([] : List String) = init
  have hnodup : init.Nodup := by rw [← hinit]; exact List.nodup_nil
  clear hinit
  induction channels generalizing init with
  | nil => exact hnodup
  | cons ch rest ih =>
    rw [List.foldl_cons]
    exact ih _ (nodup_broadcastChannelPass st _ _ hnodup)

/-- C9: with all socket sends succeeding, `broadcast_event` over an
explicit channel list delivers exactly one copy of the message to
every connected client subscribed (per the channel index) to at least
one targeted channel, and no copy to any other client, even when the
client is subscribed to several of the targeted channels. -/
theorem broadcast_event_dedup (st : ConnState) (channels : List String)
    (c : String) :
    (broadcast_event st channels).count c =
      if c ∈ st.connections ∧
          ∃ ch ∈ channels, c ∈ st.channel_subscribers ch then 1 else 0 := by
  by_cases h : c ∈ st.connections ∧
      ∃ ch ∈ channels, c ∈ st.channel_subscribers ch
  · rw [if_pos h]
    refine List.count_eq_one_of_mem (nodup_broadcast_event st channels) ?_
    rw [show broadcast_event st channels = List.foldl
      (fun sent ch => broadcastChannelPass st (st.channel_subscribers ch) sent)
      [] channels from rfl]
    rw [mem_broadcast_event_aux]
    exact Or.inr h
  · rw [if_neg h]
    refine List.count_eq_zero_of_not_mem ?_
    rw [show broadcast_event st channels = List.foldl
      (fun sent ch => broadcastChannelPass st (st.channel_subscribers ch) sent)
      [] channels from rfl]
    rw [mem_broadcast_event_aux]
    rintro (hx | hx)
    · exact absurd hx (List.not_mem_nil c)
    · exact h hx

theorem add_tag_id (t : Ticket) (now : Int) (tag : String) :
    (t.add_tag now tag).id = t.id := by
  unfold Ticket.add_tag
  split <;> rfl

theorem add_tag_status (t : Ticket) (now : Int) (tag : String) :
    (t.add_tag now tag).status = t.status := by
  unfold Ticket.add_tag
  split <;> rfl

theorem add_tag_assignee (t : Ticket) (now : Int) (tag : String) :
    (t.add_tag now tag).assignee = t.assignee := by
  unfold Ticket.add_tag
  split <;> rfl

theorem foldl_add_tag_id (tags : List String) (t : Ticket) (now : Int) :
    (tags.foldl (fun t2 tag => t2.add_tag now tag) t).id = t.id := by
  induction tags generalizing t with
  | nil => rfl
  | cons a rest ih => rw [List.foldl_cons, ih, add_tag_id]

theorem foldl_add_tag_status (tags : List String) (t : Ticket) (now : Int) :
    (tags.foldl (fun t2 tag => t2.add_tag now tag) t).status = t.status := by
  induction tags generalizing t with
  | nil => rfl
  | cons a rest ih => rw [List.foldl_cons, ih, add_tag_status]

theorem foldl_add_tag_assignee (tags : List String) (t : Ticket) (now : Int) :
    (tags.foldl (fun t2 tag => t2.add_tag now tag) t).assignee = t.assignee := by
  induction tags generalizing t with
  | nil => rfl
  | cons a rest ih => rw [List.foldl_cons, ih, add_tag_assignee]

/-- The triage field updates never change the ticket id. -/
theorem apply_triage_fields_id (now : Int) (t : Ticket) (r : TriageResult) :
    (apply_triage_fields now t r).id = t.id := by
  simp only [apply_triage_fields]
  rw [foldl_add_tag_id]
  repeat' split
  all_goals rfl

/-- The triage field updates never change the ticket status. -/
theorem apply_triage_fields_status (now : Int) (t : Ticket) (r : TriageResult) :
    (apply_triage_fields now t r).status = t.status := by
  simp only [apply_triage_fields]
  rw [foldl_add_tag_status]
  repeat' split
  all_goals rfl

/-- The triage field updates never change the assignee. -/
theorem apply_triage_fields_assignee (now : Int) (t : Ticket) (r : TriageResult) :
    (apply_triage_fields now t r).assignee = t.assignee := by
  simp only [apply_triage_fields]
  rw [foldl_add_tag_assignee]
  repeat' split
  all_goals rfl

theorem entryCount_append (l1 l2 : List QueueEntry) (id : String) :
    entryCount (l1 ++ l2) id = entryCount l1 id + entryCount l2 id := by
  simp [entryCount, List.filter_append]

/-- A queue containing some entry for an id yields that id's first
entry through `find?`. -/
theorem find?_entry_of_mem (l : List QueueEntry) (id : String)
    (h : ∃ e ∈ l, e.ticket_id = id) :
    ∃ e, l.find? (fun e2 => e2.ticket_id == id) = some e ∧ e.ticket_id = id := by
  obtain ⟨e, he, hid⟩ := h
  have hsome : (l.find? (fun e2 => e2.ticket_id == id)).isSome :=
    List.find?_isSome.mpr ⟨e, he, by simp [hid]⟩
  obtain ⟨e2, he2⟩ := Option.isSome_iff_exists.mp hsome
  exact ⟨e2, he2, by simpa using List.find?_some he2⟩

/-- Erasing the entry `find?` located removes exactly one entry for
the id. -/
theorem entryCount_erase_found (l : List QueueEntry) (id : String)
    (e : QueueEntry) (hfind : l.find? (fun e2 => e2.ticket_id == id) = some e) :
    entryCount (l.erase e) id + 1 = entryCount l id := by
  have hmem : e ∈ l := List.mem_of_find?_eq_some hfind
  have hid : (e.ticket_id == id) = true := by
    simpa using List.find?_some hfind
  have hperm : List.Perm l (e :: l.erase e) := List.perm_cons_erase hmem
  have hlen := (hperm.filter (fun e2 => e2.ticket_id == id)).length_eq
  simp only [entryCount]
  rw [hlen, List.filter_cons, if_pos hid, List.length_cons]

/-- The effect of a successful `move_ticket` between two distinct
queues on the moved id's entry counts and index row. -/
theorem move_effects (s : QMState) (now : Int) (id : String)
    (fq tq : QueueType) (hne : fq ≠ tq) (t : Ticket) (reason : String)
    (actor : Option String) (e : QueueEntry)
    (hfind : (s.queues fq).find? (fun e2 => e2.ticket_id == id) = some e) :
    entryCount ((s.move_ticket now id fq tq t reason actor).2.queues tq) id =
      entryCount (s.queues tq) id + 1 ∧
    entryCount ((s.move_ticket now id fq tq t reason actor).2.queues fq) id + 1 =
      entryCount (s.queues fq) id ∧
    (s.move_ticket now id fq tq t reason actor).2.ticket_queue_map id =
      some tq := by
  have hq : ∀ q, (s.move_ticket now id fq tq t reason actor).2.queues q =
      if q = tq then
        (if q = fq then (s.queues fq).erase e else s.queues q) ++
          [{ ticket_id := id, enqueued_at := now,
             priority_score := calculate_priority_score now t }]
      else if q = fq then (s.queues fq).erase e else s.queues q := by
    intro q
    simp only [QMState.move_ticket]
    rw [hfind]
  have hm : (s.move_ticket now id fq tq t reason actor).2.ticket_queue_map id =
      some tq := by
    simp only [QMState.move_ticket]
    rw [hfind]
    simp
  refine ⟨?_, ?_, hm⟩
  · rw [hq tq]
    have h1 : tq ≠ fq := fun h => hne h.symm
    simp [h1, entryCount, List.filter_append]
  · rw [hq fq, if_neg hne, if_pos rfl]
    exact entryCount_erase_found _ _ _ hfind

/-- C3: on a ticket enqueued in INBOX, a successful triage result
with confidence at least 0.8 (inclusive) sets the ticket's status to
ASSIGNED — through `assign` when the classifier named a (truthy)
assignee, recording it, and through a direct status update otherwise,
leaving the assignee untouched — and moves the ticket's queue entry
from INBOX to ASSIGNMENT; with confidence below 0.8 the entry moves
from INBOX to TRIAGE instead. -/
theorem triage_confidence_routing (s : QMState) (now : Int) (t : Ticket)
    (r : TriageResult) (hstatus : t.status = .INBOX)
    (hmem : ∃ e ∈ s.queues QueueType.INBOX, e.ticket_id = t.id) :
    (r.confidence ≥ 8 / 10 →
      (apply_triage_result s now t r).2.status = .ASSIGNED ∧
      (truthyStr r.suggested_assignee = true →
        (apply_triage_result s now t r).2.assignee = r.suggested_assignee) ∧
      (truthyStr r.suggested_assignee = false →
        (apply_triage_result s now t r).2.assignee = t.assignee) ∧
      entryCount ((apply_triage_result s now t r).1.queues .ASSIGNMENT) t.id =
        entryCount (s.queues .ASSIGNMENT) t.id + 1 ∧
      entryCount ((apply_triage_result s now t r).1.queues .INBOX) t.id + 1 =
        entryCount (s.queues .INBOX) t.id ∧
      (apply_triage_result s now t r).1.ticket_queue_map t.id =
        some .ASSIGNMENT) ∧
    (r.confidence < 8 / 10 →
      entryCount ((apply_triage_result s now t r).1.queues .TRIAGE) t.id =
        entryCount (s.queues .TRIAGE) t.id + 1 ∧
      entryCount ((apply_triage_result s now t r).1.queues .INBOX) t.id + 1 =
        entryCount (s.queues .INBOX) t.id ∧
      (apply_triage_result s now t r).1.ticket_queue_map t.id =
        some .TRIAGE) := by
  obtain ⟨e, hfind, hide⟩ := find?_entry_of_mem _ _ hmem
  have hst5 : (apply_triage_fields now t r).status = TicketStatus.INBOX := by
    rw [apply_triage_fields_status, hstatus]
  constructor
  · intro hconf
    have hkey : ∀ t6 : Ticket, t6.id = t.id →
        entryCount ((s.move_ticket now t6.id .INBOX .ASSIGNMENT t6
            ("AI Auto-Triage (Confidence: " ++ toString r.confidence ++ ")")
            none).2.queues .ASSIGNMENT) t.id =
          entryCount (s.queues .ASSIGNMENT) t.id + 1 ∧
        entryCount ((s.move_ticket now t6.id .INBOX .ASSIGNMENT t6
            ("AI Auto-Triage (Confidence: " ++ toString r.confidence ++ ")")
            none).2.queues .INBOX) t.id + 1 =
          entryCount (s.queues .INBOX) t.id ∧
        (s.move_ticket now t6.id .INBOX .ASSIGNMENT t6
            ("AI Auto-Triage (Confidence: " ++ toString r.confidence ++ ")")
            none).2.ticket_queue_map t.id = some .ASSIGNMENT := by
      intro t6 hid6
      rw [hid6]
      exact move_effects s now t.id .INBOX .ASSIGNMENT (by decide) t6 _ none e
        hfind
    cases hsa : r.suggested_assignee with
    | none =>
      have hpair : apply_triage_result s now t r =
          ((s.move_ticket now
              ((apply_triage_fields now t r).update_status now .ASSIGNED).id
              .INBOX .ASSIGNMENT
              ((apply_triage_fields now t r).update_status now .ASSIGNED)
              ("AI Auto-Triage (Confidence: " ++ toString r.confidence ++ ")")
              none).2,
            (apply_triage_fields now t r).update_status now .ASSIGNED) := by
        simp only [apply_triage_result, if_pos hconf, hsa]
      rw [hpair]
      refine ⟨rfl, ?_, fun _ => ?_, ?_⟩
      · intro htr
        exact absurd htr (by simp [truthyStr])
      · show (apply_triage_fields now t r).assignee = t.assignee
        exact apply_triage_fields_assignee now t r
      · exact hkey _ (apply_triage_fields_id now t r)
    | some a =>
      by_cases ha : a = ""
      · subst ha
        have hpair : apply_triage_result s now t r =
            ((s.move_ticket now
                ((apply_triage_fields now t r).update_status now .ASSIGNED).id
                .INBOX .ASSIGNMENT
                ((apply_triage_fields now t r).update_status now .ASSIGNED)
                ("AI Auto-Triage (Confidence: " ++ toString r.confidence ++ ")")
                none).2,
              (apply_triage_fields now t r).update_status now .ASSIGNED) := by
          simp only [apply_triage_result, if_pos hconf, hsa]
          simp
        rw [hpair]
        refine ⟨rfl, ?_, fun _ => ?_, ?_⟩
        · intro htr
          exact absurd htr (by simp [truthyStr])
        · show (apply_triage_fields now t r).assignee = t.assignee
          exact apply_triage_fields_assignee now t r
        · exact hkey _ (apply_triage_fields_id now t r)
      · have hpair : apply_triage_result s now t r =
            ((s.move_ticket now
                ((apply_triage_fields now t r).assign now a).id .INBOX .ASSIGNMENT
                ((apply_triage_fields now t r).assign now a)
                ("AI Auto-Triage (Confidence: " ++ toString r.confidence ++ ")")
                none).2,
              (apply_triage_fields now t r).assign now a) := by
          simp only [apply_triage_result, if_pos hconf, hsa]
          rw [if_neg ha]
        have hida : ((apply_triage_fields now t r).assign now a).id = t.id := by
          unfold Ticket.assign
          have := apply_triage_fields_id now t r
          split <;> simpa using this
        rw [hpair]
        refine ⟨?_, fun _ => ?_, ?_, ?_⟩
        · show ((apply_triage_fields now t r).assign now a).status = .ASSIGNED
          unfold Ticket.assign
          rw [if_pos (Or.inl hst5)]
        · show ((apply_triage_fields now t r).assign now a).assignee = some a
          unfold Ticket.assign
          split <;> rfl
        · intro htr
          simp [truthyStr, ha] at htr
        · exact hkey _ hida
  · intro hconf
    have hnot : ¬ r.confidence ≥ 8 / 10 := not_le.mpr hconf
    simp only [apply_triage_result, if_neg hnot]
    have hid5 := apply_triage_fields_id now t r
    rw [hid5]
    exact move_effects s now t.id .INBOX .TRIAGE (by decide)
      (apply_triage_fields now t r) _ none e hfind

/-- Witness for C3: the sample high-confidence result on the sample
INBOX state assigns and routes to ASSIGNMENT. -/
theorem triage_confidence_routing_witness :
    (apply_triage_result sampleQMState 3 sampleTicket
      sampleTriageResult).2.status = .ASSIGNED ∧
    (apply_triage_result sampleQMState 3 sampleTicket
      sampleTriageResult).1.ticket_queue_map "t0" = some .ASSIGNMENT := by
  have h := (triage_confidence_routing sampleQMState 3 sampleTicket
    sampleTriageResult rfl
    ⟨{ ticket_id := "t0", enqueued_at := 0, priority_score := 200 },
      by decide, rfl⟩).1 (by norm_num [sampleTriageResult])
  exact ⟨h.1, h.2.2.2.2.2⟩

/-- The five-queue total count, expanded queue by queue. -/
theorem countId_eq (s : QMState) (id : String) :
    s.countId id =
      entryCount (s.queues .INBOX) id + entryCount (s.queues .TRIAGE) id +
      entryCount (s.queues .ASSIGNMENT) id + entryCount (s.queues .ACTIVE) id +
      entryCount (s.queues .RESOLUTION) id := by
  simp [QMState.countId, QueueType.all]
  omega

theorem entryCount_le_of_sublist (l1 l2 : List QueueEntry) (id : String)
    (h : List.Sublist l1 l2) : entryCount l1 id ≤ entryCount l2 id :=
  List.Sublist.length_le (h.filter _)

theorem entryCount_singleton (e : QueueEntry) (id : String) :
    entryCount [e] id = if e.ticket_id == id then 1 else 0 := by
  by_cases h : (e.ticket_id == id) = true <;> simp [entryCount, h]

/-- Erasing an entry with a different id does not change the count. -/
theorem entryCount_erase_other (l : List QueueEntry) (e : QueueEntry)
    (id : String) (hmem : e ∈ l) (hne : (e.ticket_id == id) = false) :
    entryCount (l.erase e) id = entryCount l id := by
  have hperm : List.Perm l (e :: l.erase e) := List.perm_cons_erase hmem
  have hlen := (hperm.filter (fun e2 => e2.ticket_id == id)).length_eq
  simp only [entryCount]
  rw [hlen, List.filter_cons, if_neg (by simp [hne])]

/-- An id absent from every queue has total count zero. -/
theorem countId_of_idAbsent (s : QMState) (id : String)
    (h : s.idAbsent id = true) : s.countId id = 0 := by
  simp only [QMState.idAbsent, QueueType.all, List.all_cons, List.all_nil,
    Bool.and_eq_true, Bool.and_true] at h
  obtain ⟨h1, h2, h3, h4, h5⟩ := h
  have hz : ∀ l : List QueueEntry,
      l.all (fun e => e.ticket_id != id) = true → entryCount l id = 0 := by
    intro l hl
    have : ∀ e ∈ l, ¬ (e.ticket_id == id) = true := by
      intro e he
      have := List.all_eq_true.mp hl e he
      simpa using this
    simp [entryCount, List.filter_eq_nil_iff.mpr this]
  rw [countId_eq, hz _ h1, hz _ h2, hz _ h3, hz _ h4, hz _ h5]

/-- Replacing one queue's sequence changes the total count by the
difference on that queue. -/
theorem countId_update (s : QMState) (q : QueueType) (l : List QueueEntry)
    (m : String → Option QueueType) (a : List AuditLogEntry) (id : String) :
    QMState.countId
        { queues := fun q2 => if q2 = q then l else s.queues q2,
          ticket_queue_map := m, audit_log := a } id +
      entryCount (s.queues q) id =
    s.countId id + entryCount l id := by
  cases q <;> simp [QMState.countId, QueueType.all] <;> omega

/-- C7 (counterexample): enqueueing the same ticket twice — which the
code never guards against — leaves two simultaneous entries for its
id across the queues. -/
theorem double_enqueue_two_entries :
    doubleEnqueueState.countId "t0" = 2 ∧
    ¬ doubleEnqueueState.countId "t0" ≤ 1 := by
  constructor <;> decide

/-- The dequeue operation never increases any id's total count. -/
theorem countId_dequeue_le (s : QMState) (q : QueueType) (pb : Bool)
    (id : String) : (s.dequeue q pb).2.countId id ≤ s.countId id := by
  simp only [QMState.dequeue]
  cases hdq : s.queues q with
  | nil => exact le_refl _
  | cons hd tl =>
    by_cases hpb : pb = true ∧ (hd :: tl).length > 1
    · rw [if_pos hpb]
      cases hfm : firstMaxEntry (hd :: tl) with
      | none => exact le_refl _
      | some entry =>
        have hupd := countId_update s q ((hd :: tl).erase entry)
          (fun i => if i = entry.ticket_id then none else s.ticket_queue_map i)
          s.audit_log id
        have hle : entryCount ((hd :: tl).erase entry) id ≤
            entryCount (s.queues q) id := by
          rw [hdq]
          exact entryCount_le_of_sublist _ _ _ (List.erase_sublist _ _)
        simp only [if_pos hpb, hfm]
        omega
    · rw [if_neg hpb]
      cases hgl : (hd :: tl).getLast? with
      | none => exact le_refl _
      | some entry =>
        have hupd := countId_update s q ((hd :: tl).dropLast)
          (fun i => if i = entry.ticket_id then none else s.ticket_queue_map i)
          s.audit_log id
        have hle : entryCount ((hd :: tl).dropLast) id ≤
            entryCount (s.queues q) id := by
          rw [hdq]
          exact entryCount_le_of_sublist _ _ _ (List.dropLast_sublist _)
        simp only [if_neg hpb, hgl]
        omega

/-- C7 (amended): in every manager state reachable by the queue
operations in which each `enqueue` is only applied to a ticket absent
from all queues, every ticket id occurs in at most one entry across
the five queues together. -/
theorem queue_entries_unique_of_guarded (s : QMState)
    (h : ReachableGuarded s) : ∀ id, s.countId id ≤ 1 := by
  induction h with
  | init =>
    intro id
    rw [countId_eq]
    simp [QMState.initial, entryCount]
  | enqueue s now t q reason actor hreach habs ih =>
    intro id
    have hupd := countId_update s q
      (s.queues q ++
        [{ ticket_id := t.id, enqueued_at := now,
           priority_score := calculate_priority_score now t }])
      (fun i => if i = t.id then some q else s.ticket_queue_map i)
      (s.audit_log ++
        [{ timestamp := now, ticket_id := t.id, from_queue := none,
           to_queue := q, reason := reason, actor := actor }]) id
    rw [entryCount_append, entryCount_singleton] at hupd
    have hstate : (s.enqueue now t q reason actor).1.countId id =
        QMState.countId
          { queues := fun q2 => if q2 = q then
              s.queues q ++
                [{ ticket_id := t.id, enqueued_at := now,
                   priority_score := calculate_priority_score now t }]
              else s.queues q2,
            ticket_queue_map := fun i =>
              if i = t.id then some q else s.ticket_queue_map i,
            audit_log := s.audit_log ++
              [{ timestamp := now, ticket_id := t.id, from_queue := none,
                 to_queue := q, reason := reason, actor := actor }] } id := by
      congr 1
      simp only [QMState.enqueue]
      congr 1
      funext q2
      by_cases hq2 : q2 = q <;> simp [hq2]
    rw [hstate]
    by_cases hid : (t.id == id) = true
    · rw [if_pos hid] at hupd
      have habs0 : s.countId id = 0 := by
        have h1 : id = t.id := (eq_of_beq hid).symm
        rw [h1]
        exact countId_of_idAbsent s t.id habs
      omega
    · rw [if_neg hid] at hupd
      have := ih id
      omega
  | dequeue s q pb hreach ih =>
    intro id
    exact le_trans (countId_dequeue_le s q pb id) (ih id)
  | move s now id2 fq tq t reason actor hreach ih =>
    intro id
    cases hfind : (s.queues fq).find? (fun e2 => e2.ticket_id == id2) with
    | none =>
      have hsame : (s.move_ticket now id2 fq tq t reason actor).2 = s := by
        simp only [QMState.move_ticket]
        rw [hfind]
      rw [hsame]
      exact ih id
    | some e =>
      have hq : ∀ q2, (s.move_ticket now id2 fq tq t reason actor).2.queues q2 =
          if q2 = tq then
            (if q2 = fq then (s.queues fq).erase e else s.queues q2) ++
              [{ ticket_id := id2, enqueued_at := now,
                 priority_score := calculate_priority_score now t }]
          else if q2 = fq then (s.queues fq).erase e else s.queues q2 := by
        intro q2
        simp only [QMState.move_ticket]
        rw [hfind]
      have hmem_e : e ∈ s.queues fq := List.mem_of_find?_eq_some hfind
      have he_id : (e.ticket_id == id2) = true := by
        simpa using List.find?_some hfind
      have hs := ih id
      rw [countId_eq] at hs
      rw [countId_eq, hq .INBOX, hq .TRIAGE, hq .ASSIGNMENT, hq .ACTIVE,
        hq .RESOLUTION]
      by_cases hid : id = id2
      · subst hid
        have hef : entryCount ((s.queues fq).erase e) id + 1 =
            entryCount (s.queues fq) id := entryCount_erase_found _ _ _ hfind
        have hsing : entryCount
            [{ ticket_id := id, enqueued_at := now,
               priority_score := calculate_priority_score now t }] id = 1 := by
          simp [entryCount]
        cases fq <;> cases tq <;> simp [entryCount_append, hsing] <;> omega
      · have hne_beq : (e.ticket_id == id) = false := by
          have heq : e.ticket_id = id2 := eq_of_beq he_id
          rw [heq, beq_eq_false_iff_ne]
          exact Ne.symm hid
        have heo : entryCount ((s.queues fq).erase e) id =
            entryCount (s.queues fq) id :=
          entryCount_erase_other _ _ _ hmem_e hne_beq
        have hsing : entryCount
            [{ ticket_id := id2, enqueued_at := now,
               priority_score := calculate_priority_score now t }] id = 0 := by
          have hb : (id2 == id) = false := by
            rw [beq_eq_false_iff_ne]
            exact Ne.symm hid
          simp [entryCount, hb]
        cases fq <;> cases tq <;> simp [entryCount_append, hsing, heo] <;> omega
  | remove s id2 q hreach ih =>
    intro id
    cases hfind : (s.queues q).find? (fun e2 => e2.ticket_id == id2) with
    | none =>
      have hsame : (s.remove_from_queue id2 q).2 = s := by
        simp only [QMState.remove_from_queue]
        rw [hfind]
      rw [hsame]
      exact ih id
    | some e =>
      have hupd := countId_update s q ((s.queues q).erase e)
        (fun i => if i = id2 then none else s.ticket_queue_map i)
        s.audit_log id
      have hle : entryCount ((s.queues q).erase e) id ≤
          entryCount (s.queues q) id :=
        entryCount_le_of_sublist _ _ _ (List.erase_sublist _ _)
      have hstate : (s.remove_from_queue id2 q).2.countId id =
          QMState.countId
            { queues := fun q2 =>
                if q2 = q then (s.queues q).erase e else s.queues q2,
              ticket_queue_map := fun i =>
                if i = id2 then none else s.ticket_queue_map i,
              audit_log := s.audit_log } id := by
        congr 1
        simp only [QMState.remove_from_queue]
        rw [hfind]
      rw [hstate]
      have := ih id
      omega

/-- Witness for the amended C7: a single guarded enqueue still
satisfies the at-most-one-entry bound. -/
theorem queue_entries_unique_of_guarded_witness :
    (QMState.initial.enqueue 0 sampleTicket .TRIAGE "enqueued" none).1.countId
      "t0" ≤ 1 :=
  queue_entries_unique_of_guarded _
    (ReachableGuarded.enqueue QMState.initial 0 sampleTicket .TRIAGE "enqueued"
      none ReachableGuarded.init (by decide)) "t0"

/-- The auto-close fold over a list of RESOLVED tickets closes
exactly the sufficiently old ones, in order, with one event each. -/
theorem auto_close_fold (now : Int) (l : List Ticket)
    (acc : List Ticket × List TicketUpdatedEvent) :
    (∀ t ∈ l, t.status = TicketStatus.RESOLVED) →
    l.foldl
      (fun acc t =>
        if t.updated_at < now - 5 * 60 then
          match t.close now with
          | .ok t2 =>
            (acc.1 ++ [t2],
             acc.2 ++
               [{ ticket_id := t2.id, changes := [("status", "CLOSED")] }])
          | .error _ => acc
        else acc)
      acc =
    (acc.1 ++
       (l.filter (fun t => decide (t.updated_at < now - 5 * 60))).map
         (fun t => { t with status := TicketStatus.CLOSED, updated_at := now }),
     acc.2 ++
       (l.filter (fun t => decide (t.updated_at < now - 5 * 60))).map
         (fun t =>
           { ticket_id := t.id, changes := [("status", "CLOSED")] })) := by
  induction l generalizing acc with
  | nil => intro _; simp
  | cons t rest ih =>
    intro hres
    have hres_t : t.status = TicketStatus.RESOLVED :=
      hres t (List.mem_cons_self t rest)
    have hres_rest : ∀ t2 ∈ rest, t2.status = TicketStatus.RESOLVED :=
      fun t2 h2 => hres t2 (List.mem_cons_of_mem t h2)
    rw [List.foldl_cons]
    by_cases hlt : t.updated_at < now - 5 * 60
    · rw [if_pos hlt]
      have hclose : t.close now =
          .ok { t with status := TicketStatus.CLOSED, updated_at := now } := by
        unfold Ticket.close
        rw [if_neg (by simp [hres_t])]
      rw [hclose]
      rw [ih _ hres_rest]
      have hlt2 : t.updated_at < now - 300 := by omega
      simp [hlt2, List.filter_cons]
    · rw [if_neg hlt]
      rw [ih _ hres_rest]
      have hlt2 : ¬ t.updated_at < now - 300 := by omega
      simp [hlt2, List.filter_cons]

/-- C4 (counterexample): a RESOLVED ticket whose age is exactly 300
seconds satisfies the claim's selection condition
`now - updated_at ≥ 300` but the loop body closes nothing: the code
uses the strict comparison `updated_at < now - 5 minutes`. -/
theorem auto_close_boundary_not_closed :
    resolvedTicket.status = TicketStatus.RESOLVED ∧
    1000 - resolvedTicket.updated_at ≥ 300 ∧
    run_auto_close_body 1000 [resolvedTicket] = ([], []) := by
  refine ⟨rfl, by norm_num [resolvedTicket, sampleTicket], ?_⟩
  simp [run_auto_close_body, repository_find_by_status, resolvedTicket,
    sampleTicket]

/-- C4 (amended): when at most 100 tickets are RESOLVED (the
repository query's default limit), one run of the auto-close loop body
closes exactly those tickets whose status is RESOLVED and whose
`updated_at` lies strictly more than 300 seconds in the past — each
via `close()`, producing status CLOSED — and publishes exactly one
`ticket.updated` event with a `status: CLOSED` payload per closed
ticket. -/
theorem auto_close_selects_exactly (now : Int) (tickets : List Ticket)
    (hcount :
      (tickets.filter (fun t => t.status == TicketStatus.RESOLVED)).length ≤
        100) :
    List.Perm (run_auto_close_body now tickets).1
      ((tickets.filter (fun t =>
          decide (t.updated_at < now - 5 * 60) &&
            (t.status == TicketStatus.RESOLVED))).map
        (fun t => { t with status := TicketStatus.CLOSED, updated_at := now })) ∧
    (∀ t2 ∈ (run_auto_close_body now tickets).1,
      t2.status = TicketStatus.CLOSED) ∧
    (run_auto_close_body now tickets).2 =
      (run_auto_close_body now tickets).1.map
        (fun t2 => { ticket_id := t2.id, changes := [("status", "CLOSED")] }) := by
  have hfind_eq : repository_find_by_status tickets TicketStatus.RESOLVED =
      (tickets.filter (fun t => t.status == TicketStatus.RESOLVED)).mergeSort
        (fun a b => decide (b.created_at ≤ a.created_at)) := by
    simp only [repository_find_by_status]
    rw [List.drop_zero, List.take_of_length_le]
    rw [List.length_mergeSort]
    exact hcount
  have hres : ∀ t ∈ repository_find_by_status tickets TicketStatus.RESOLVED,
      t.status = TicketStatus.RESOLVED := by
    intro t ht
    rw [hfind_eq] at ht
    rw [List.mem_mergeSort] at ht
    have := (List.mem_filter.mp ht).2
    simpa using this
  have hrun : run_auto_close_body now tickets =
      (((repository_find_by_status tickets TicketStatus.RESOLVED).filter
          (fun t => decide (t.updated_at < now - 5 * 60))).map
        (fun t => { t with status := TicketStatus.CLOSED, updated_at := now }),
       ((repository_find_by_status tickets TicketStatus.RESOLVED).filter
          (fun t => decide (t.updated_at < now - 5 * 60))).map
        (fun t => { ticket_id := t.id, changes := [("status", "CLOSED")] })) := by
    have h := auto_close_fold now
      (repository_find_by_status tickets TicketStatus.RESOLVED) ([], []) hres
    simpa [run_auto_close_body] using h
  refine ⟨?_, ?_, ?_⟩
  · rw [hrun]
    refine List.Perm.map _ ?_
    have hperm : List.Perm
        ((tickets.filter (fun t => t.status == TicketStatus.RESOLVED)).mergeSort
          (fun a b => decide (b.created_at ≤ a.created_at)))
        (tickets.filter (fun t => t.status == TicketStatus.RESOLVED)) :=
      List.mergeSort_perm _ _
    have h2 := hperm.filter (fun t => decide (t.updated_at < now - 5 * 60))
    rw [hfind_eq]
    rw [List.filter_filter] at h2
    exact h2
  · rw [hrun]
    intro t2 ht2
    obtain ⟨t, _, rfl⟩ := List.mem_map.mp ht2
    rfl
  · rw [hrun]
    rw [List.map_map]
    rfl

/-- Witness for the amended C4 at a concrete repository with one
sufficiently old RESOLVED ticket. -/
theorem auto_close_selects_exactly_witness :
    List.Perm (run_auto_close_body 1000 [oldResolvedTicket]).1
      (([oldResolvedTicket].filter (fun t =>
          decide (t.updated_at < 1000 - 5 * 60) &&
            (t.status == TicketStatus.RESOLVED))).map
        (fun t =>
          { t with status := TicketStatus.CLOSED, updated_at := 1000 })) ∧
    (∀ t2 ∈ (run_auto_close_body 1000 [oldResolvedTicket]).1,
      t2.status = TicketStatus.CLOSED) ∧
    (run_auto_close_body 1000 [oldResolvedTicket]).2 =
      (run_auto_close_body 1000 [oldResolvedTicket]).1.map
        (fun t2 => { ticket_id := t2.id, changes := [("status", "CLOSED")] }) :=
  auto_close_selects_exactly 1000 [oldResolvedTicket] (by decide)

end TicketSystem
